import Mathlib

/-!
# Verification of the spinnaker build/test tooling fragment

Shallow embedding of two source files:

* `dev/buildtool/debian_commands.py` — the bounded build dispatcher
  (`BuildDebianCommand`): construction-time configuration validation,
  build-argument assembly, and the semaphore-gated per-repository build.
* `testing/citest/spinnaker_testing/gcs_pubsub_trigger_agent.py` — the
  trigger-then-poll status object (`GcsPubsubTriggerOperationStatus`):
  construction and the `refresh()` state transition.

Python machine state is made explicit: environment variables are `Option
String` fields, `os.environ.get` truthiness is modelled (absent or empty
is falsy), mutation of the options object is modelled by returning the
updated options, exceptions are `Except`, wall-clock reads are parameters,
and concurrency is a small-step transition system over task states plus a
semaphore permit count.
-/

set_option autoImplicit false

namespace Spinnaker

/-! ## Dispatcher data model (`debian_commands.py`) -/

/-- The slice of the buildtool options object read or written by
`BuildDebianCommand`.  The four `bintray_*` options are `Option String`
because `check_options_set` tests whether they are set. -/
structure Options where
  github_disable_upstream_push : Bool
  max_local_builds : Nat
  bintray_org : Option String
  bintray_jar_repository : Option String
  bintray_debian_repository : Option String
  bintray_publish_wait_secs : Option String
  run_unit_tests : Bool
  gradle_cache_path : Option String
deriving DecidableEq

/-- The slice of `os.environ` the dispatcher consults.  `none` models an
unset variable. -/
structure Env where
  bintray_key : Option String
  bintray_user : Option String
  chrome_bin : Option String
deriving DecidableEq

/-- Python truthiness of `os.environ.get(name)` (and of
`options.gradle_cache_path`): an absent value or the empty string is
falsy. -/
def pyTruthy : Option String → Bool
  | none => false
  | some s => !s.isEmpty

/-- Errors surfaced by the dispatcher.  `ConfigError` is the fatal
configuration error raised by `raise_and_log_error` / `check_options_set`. -/
inductive BuildError where
  | configError (msg : String)
deriving DecidableEq

/-- A repository descriptor: the fields of `repository` that
`_do_repository` reads. -/
structure Repository where
  name : String
  git_dir : String
deriving DecidableEq

/-- Modelled from the spec: `check_options_set` lives in the `buildtool`
package, which is not under `src/`; per the spec, a missing required
option is "a fatal configuration error" raised at construction.  Checks
the four option names passed at `debian_commands.py` lines 43-45. -/
def check_options_set (opts : Options) : Except BuildError Unit :=
  if opts.bintray_org.isSome && opts.bintray_jar_repository.isSome &&
      opts.bintray_debian_repository.isSome &&
      opts.bintray_publish_wait_secs.isSome then
    Except.ok ()
  else
    Except.error (BuildError.configError "Missing required options")

/-- The dispatcher state produced by a successful `BuildDebianCommand.__init__`:
the (mutated) options object and the initial permit count of
`self.__semaphore = Semaphore(options.max_local_builds)`. -/
structure BuildDebianCommand where
  options : Options
  semaphorePermits : Nat
deriving DecidableEq

/-- Constructor `BuildDebianCommand.__init__` (lines 34-45): mutates
`options.github_disable_upstream_push = True`, sizes the semaphore from
`options.max_local_builds`, then raises `ConfigError` if `BINTRAY_KEY` or
`BINTRAY_USER` is unset (Python truthiness) or any of the four required
options is missing. -/
def buildDebianInit (env : Env) (opts : Options) :
    Except BuildError BuildDebianCommand :=
  let opts := { opts with github_disable_upstream_push := true }
  let cmd : BuildDebianCommand :=
    { options := opts, semaphorePermits := opts.max_local_builds }
  if !pyTruthy env.bintray_key then
    Except.error (BuildError.configError "Expected BINTRAY_KEY set.")
  else if !pyTruthy env.bintray_user then
    Except.error (BuildError.configError "Expected BINTRAY_USER set.")
  else
    match check_options_set opts with
    | Except.error e => Except.error e
    | Except.ok _ => Except.ok cmd

/-- The abstract gradle collaborator of `_do_repository`: `get_common_args()`
and `get_debian_args(distros)` are opaque argument lists. -/
structure GradleCollaborator where
  common_args : List String
  debian_args : String → List String

/-- The command argument list assembled by `_do_repository` (lines 56-69)
before the gated `check_run` call.  `initPublishExists` models the
`os.path.isfile(...)` probe for `gradle/init-publish.gradle`. -/
def buildCommandArgs (options : Options) (gradle : GradleCollaborator)
    (env : Env) (repo : Repository) (initPublishExists : Bool) :
    List String :=
  let args := gradle.common_args
  let args := if pyTruthy options.gradle_cache_path then
      args ++ ["--gradle-user-home=" ++ options.gradle_cache_path.getD ""]
    else args
  let args := if !options.run_unit_tests ||
      (repo.name == "deck" && !env.chrome_bin.isSome) then
      args ++ ["-x test"]
    else args
  let args := if initPublishExists then
      args ++ ["-I gradle/init-publish.gradle"]
    else args
  args ++ gradle.debian_args "trusty,xenial,bionic"

/-! ## Semaphore gate: event traces of one `_do_repository` call -/

/-- Events observable at the gate and the build-tool collaborator during
one `_do_repository` call. -/
inductive BuildEvent where
  | acquire
  | runCheck
  | release
deriving DecidableEq

/-- Python `with self.__semaphore: body` — the semaphore is acquired, the
body runs, and the semaphore is released on every exit path (normal
return or exception).  The body is given as its event trace plus its
outcome. -/
def withSemaphore {ε α : Type} (body : List BuildEvent × Except ε α) :
    List BuildEvent × Except ε α :=
  (BuildEvent.acquire :: body.1 ++ [BuildEvent.release], body.2)

/-- The call `self.gradle.check_run(args, self, repository, ...)` bound
to the candidate / debian-build labels: one call into the build-tool
collaborator, whose outcome (success or raised failure) is a
parameter. -/
def checkRunCall {ε : Type} (outcome : Except ε Unit) :
    List BuildEvent × Except ε Unit :=
  ([BuildEvent.runCheck], outcome)

/-- The gated execution performed by `_do_repository` lines 71-72:
`with self.__semaphore: self.gradle.check_run(...)`. -/
def doRepositoryRun {ε : Type} (outcome : Except ε Unit) :
    List BuildEvent × Except ε Unit :=
  withSemaphore (checkRunCall outcome)

/-- Net effect of a trace on the semaphore permit count, starting from
`p` permits. -/
def gateDelta : List BuildEvent → Int
  | [] => 0
  | BuildEvent.acquire :: es => gateDelta es - 1
  | BuildEvent.release :: es => gateDelta es + 1
  | BuildEvent.runCheck :: es => gateDelta es

/-! ## Semaphore gate: interleaved dispatch as a transition system

Several `_do_repository` calls run in parallel threads sharing
`self.__semaphore`.  Each call is a task that is `pending` before its
`acquire`, `running` while inside the `with` block (i.e. while its
`check_run` executes), and `done` after the release — whether the run
succeeded or raised. -/

/-- Phase of one per-repository build task relative to the gate. -/
inductive TaskState where
  | pending
  | running
  | done
deriving DecidableEq

/-- Shared dispatch state: the available semaphore permits and the
phase of each queued task. -/
structure DispatchState where
  permits : Nat
  tasks : List TaskState
deriving DecidableEq

/-- Number of build invocations currently inside the `with` block, i.e.
concurrently executing `check_run` calls. -/
def countRunning (ts : List TaskState) : Nat :=
  ts.countP (fun t => t == TaskState.running)

/-- Interleaving steps: a pending task may acquire the semaphore when a
permit is available (`Semaphore.acquire` blocks otherwise); a running
task finishes — successfully or by raising — and the `with` statement
releases the permit either way. -/
inductive DispatchStep : DispatchState → DispatchState → Prop where
  | acquire (s : DispatchState) (i : Nat)
      (hi : s.tasks.get? i = some TaskState.pending) (hp : 0 < s.permits) :
      DispatchStep s ⟨s.permits - 1, s.tasks.set i TaskState.running⟩
  | release (s : DispatchState) (i : Nat)
      (hi : s.tasks.get? i = some TaskState.running) :
      DispatchStep s ⟨s.permits + 1, s.tasks.set i TaskState.done⟩

/-- Initial state of a dispatch run: `Semaphore(capacity)` full, `n`
repositories queued. -/
def initialDispatch (capacity n : Nat) : DispatchState :=
  ⟨capacity, List.replicate n TaskState.pending⟩

/-- States reachable during a dispatch run with the given capacity and
queue length. -/
inductive DispatchReachable (capacity n : Nat) : DispatchState → Prop where
  | start : DispatchReachable capacity n (initialDispatch capacity n)
  | step {s t : DispatchState} : DispatchReachable capacity n s →
      DispatchStep s t → DispatchReachable capacity n t

/-! ## Trigger-poll status (`gcs_pubsub_trigger_agent.py`) -/

/-- The mutable fields of `GcsPubsubTriggerOperationStatus`.  Times are
rationals measured in seconds. -/
structure TriggerOperationStatus where
  finished_ok : Bool
  is_timed_out : Bool
  start : ℚ
  timeout_delta : ℚ
  trigger_response : String
deriving DecidableEq

/-- The `finished` property: `self.finished_ok or self.timed_out`. -/
def TriggerOperationStatus.finished (s : TriggerOperationStatus) : Bool :=
  s.finished_ok || s.is_timed_out

/-- Method `refresh()` (lines 152-163).  `delegate_finished_ok` is the
`finished_ok` of the delegate trigger status as observed after
`self.__trigger_status.refresh()`; `now` is `datetime.datetime.utcnow()`
at this call.  The second component records whether the delegate
collaborator was called at all. -/
def TriggerOperationStatus.refresh (s : TriggerOperationStatus)
    (delegate_finished_ok : Bool) (now : ℚ) :
    TriggerOperationStatus × Bool :=
  if s.finished_ok then
    (s, false)
  else
    let s1 := { s with finished_ok := delegate_finished_ok }
    if s1.finished_ok then
      (s1, true)
    else
      (({ s1 with is_timed_out := decide (now - s1.start > s1.timeout_delta) }),
        true)

/-- Folding a sequence of `refresh()` calls, each with its delegate
report and wall-clock time. -/
def refreshAll (s : TriggerOperationStatus) (inputs : List (Bool × ℚ)) :
    TriggerOperationStatus :=
  inputs.foldl (fun t i => (t.refresh i.1 i.2).1) s

/-- External effects issued by `GcsPubsubTriggerOperationStatus.__init__`
after the superclass call: the status-source lookup
(`self.__gate_agent.get(self.__status_path)`) and the wall-clock read
(`datetime.datetime.utcnow()`) that sets `self.__start`. -/
inductive InitEvent where
  | statusLookup
  | readClock
deriving DecidableEq

/-- Constructor `GcsPubsubTriggerOperationStatus.__init__` (lines 165-183), with the
external world abstracted: `gate_get` is the response of
`gate_agent.get(status_path)` and `clock k` is the wall-clock time at the
k-th external effect.  Returns the constructed status and the trace of
external effects in program order: the code captures `trigger_response`
first (line 179) and reads `utcnow()` into `self.__start` after that
(line 180); `timeout_delta` starts at `timedelta(minutes=5)` = 300
seconds, and `is_timed_out` and `finished_ok` start false. -/
def statusInit (gate_get : String) (clock : Nat → ℚ) :
    TriggerOperationStatus × List InitEvent :=
  let events0 : List InitEvent := [InitEvent.statusLookup]
  let trigger_response := gate_get
  let start := clock events0.length
  let events1 := events0 ++ [InitEvent.readClock]
  ({ finished_ok := false
     is_timed_out := false
     start := start
     timeout_delta := 300
     trigger_response := trigger_response }, events1)

/-! ## Concrete fixtures used by witnesses and counterexamples -/

/-- A fully-populated options object (all four required options set). -/
def opts0 : Options :=
  { github_disable_upstream_push := false
    max_local_builds := 2
    bintray_org := some "org"
    bintray_jar_repository := some "jar"
    bintray_debian_repository := some "deb"
    bintray_publish_wait_secs := some "600"
    run_unit_tests := false
    gradle_cache_path := none }

/-- An environment with both credentials set and no CHROME_BIN. -/
def env0 : Env :=
  { bintray_key := some "key"
    bintray_user := some "user"
    chrome_bin := none }

/-- An environment in which `BINTRAY_KEY` is unset. -/
def envNoKey : Env :=
  { bintray_key := none
    bintray_user := some "user"
    chrome_bin := none }

/-- The dispatcher state that `buildDebianInit env0 opts0` produces. -/
def cmd0 : BuildDebianCommand :=
  { options := { opts0 with github_disable_upstream_push := true }
    semaphorePermits := 2 }

/-- A dispatch state with one build inside the gate out of five queued. -/
def st1 : DispatchState :=
  ⟨1, [TaskState.running, TaskState.pending, TaskState.pending,
       TaskState.pending, TaskState.pending]⟩

/-- A status whose `finished_ok` is already true. -/
def sOk : TriggerOperationStatus :=
  { finished_ok := true, is_timed_out := false, start := 0,
    timeout_delta := 300, trigger_response := "resp" }

/-- A fresh status with `timeout_delta` = 1 second. -/
def sShort : TriggerOperationStatus :=
  { finished_ok := false, is_timed_out := false, start := 0,
    timeout_delta := 1, trigger_response := "resp" }

/-- A fresh status with the default 5-minute timeout. -/
def sFresh : TriggerOperationStatus :=
  { finished_ok := false, is_timed_out := false, start := 0,
    timeout_delta := 300, trigger_response := "resp" }

/-- The status reached from construction by one `refresh()` at 301 seconds
with a delegate that has not finished: timed out but not finished_ok. -/
def sTimedOut : TriggerOperationStatus :=
  (((statusInit "resp" (fun _ => 0)).1).refresh false 301).1

/-- A clock advancing one second per external effect. -/
def clk1 : Nat → ℚ := fun k => k

/-! ## Helper lemmas -/

/-- Successful construction fully determines the dispatcher state: the
options with `github_disable_upstream_push` forced true, and a semaphore
sized by `max_local_builds`. -/
theorem buildDebianInit_ok (env : Env) (opts : Options)
    (cmd : BuildDebianCommand)
    (h : buildDebianInit env opts = Except.ok cmd) :
    cmd = { options := { opts with github_disable_upstream_push := true }
            semaphorePermits := opts.max_local_builds } := by
  unfold buildDebianInit at h
  by_cases h1 : pyTruthy env.bintray_key <;>
    by_cases h2 : pyTruthy env.bintray_user <;>
      simp [h1, h2] at h
  cases hc : check_options_set { opts with github_disable_upstream_push := true } with
  | error e => rw [hc] at h; exact absurd h (by simp)
  | ok u => rw [hc] at h; exact (Except.ok.injEq _ _ ▸ h).symm ▸ rfl

/-- Setting index `i` from an element not satisfying `p` to one
satisfying it increments `countP`. -/
theorem countP_set_incr {α : Type} (p : α → Bool) (l : List α) (i : Nat)
    (a b : α) (h : l.get? i = some b) (hb : p b = false) (ha : p a = true) :
    (l.set i a).countP p = l.countP p + 1 := by
  induction l generalizing i with
  | nil => simp at h
  | cons x xs ih =>
    cases i with
    | zero =>
      have hx : x = b := by simpa using h
      subst hx
      simp [List.countP_cons, hb, ha]
    | succ n =>
      have := ih n h
      simp [List.countP_cons]
      omega

/-- Setting index `i` from an element satisfying `p` to one not
satisfying it decrements `countP`. -/
theorem countP_set_decr {α : Type} (p : α → Bool) (l : List α) (i : Nat)
    (a b : α) (h : l.get? i = some b) (hb : p b = true) (ha : p a = false) :
    (l.set i a).countP p + 1 = l.countP p := by
  induction l generalizing i with
  | nil => simp at h
  | cons x xs ih =>
    cases i with
    | zero =>
      have hx : x = b := by simpa using h
      subst hx
      simp [List.countP_cons, hb, ha]
    | succ n =>
      have := ih n h
      simp [List.countP_cons]
      omega

/-- A freshly queued dispatch run has no running build. -/
theorem countRunning_replicate_pending (n : Nat) :
    countRunning (List.replicate n TaskState.pending) = 0 := by
  induction n with
  | zero => rfl
  | succ m ih =>
    simp [countRunning, List.replicate_succ, List.countP_cons] at ih ⊢

/-- A single dispatch step preserves the gate invariant. -/
theorem dispatch_step_invariant {capacity : Nat} {s t : DispatchState}
    (hst : DispatchStep s t)
    (h : s.permits + countRunning s.tasks = capacity) :
    t.permits + countRunning t.tasks = capacity := by
  cases hst with
  | acquire i hi hp =>
    have hc := countP_set_incr (fun x => x == TaskState.running) s.tasks i
      TaskState.running TaskState.pending hi rfl rfl
    simp only [countRunning] at h ⊢
    omega
  | release i hi =>
    have hc := countP_set_decr (fun x => x == TaskState.running) s.tasks i
      TaskState.done TaskState.running hi rfl rfl
    simp only [countRunning] at h ⊢
    omega

/-- Gate invariant preserved by every dispatch run: available permits
plus running builds equals the capacity of the semaphore. -/
theorem dispatch_invariant (capacity n : Nat) (s : DispatchState)
    (h : DispatchReachable capacity n s) :
    s.permits + countRunning s.tasks = capacity := by
  induction h with
  | start => simp [initialDispatch, countRunning_replicate_pending]
  | step hr hst ih => exact dispatch_step_invariant hst ih

/-! ## Claim theorems -/

/-- C1: at every moment of a dispatch run, the number of concurrently
executing build invocations (tasks inside the `with self.__semaphore`
block, i.e. executing `check_run`) is at most the configured capacity
`options.max_local_builds` used to size the gate. -/
theorem concurrent_builds_bounded (env : Env) (opts : Options)
    (cmd : BuildDebianCommand) (n : Nat) (s : DispatchState)
    (hc : buildDebianInit env opts = Except.ok cmd)
    (hr : DispatchReachable cmd.semaphorePermits n s) :
    countRunning s.tasks ≤ opts.max_local_builds := by
  have h1 := buildDebianInit_ok env opts cmd hc
  have h2 := dispatch_invariant cmd.semaphorePermits n s hr
  have h3 : cmd.semaphorePermits = opts.max_local_builds := by rw [h1]
  omega

/-- Witness for C1: capacity 2, five queued repositories, one build
currently inside the gate. -/
theorem concurrent_builds_bounded_witness :
    buildDebianInit env0 opts0 = Except.ok cmd0 ∧
    DispatchReachable cmd0.semaphorePermits 5 st1 ∧
    countRunning st1.tasks ≤ opts0.max_local_builds := by
  have hinit : buildDebianInit env0 opts0 = Except.ok cmd0 := by rfl
  have hstep : DispatchStep (initialDispatch 2 5) st1 :=
    DispatchStep.acquire (initialDispatch 2 5) 0 rfl (by decide)
  have hreach : DispatchReachable cmd0.semaphorePermits 5 st1 :=
    DispatchReachable.step DispatchReachable.start hstep
  exact ⟨hinit, hreach,
    concurrent_builds_bounded env0 opts0 cmd0 5 st1 hinit hreach⟩

/-- C2: one `_do_repository` call acquires the gate exactly once before
the `check_run` call and releases it exactly once afterward, for every
outcome of `check_run` — success or raised failure — so a failing call
leaves the net permit change of the gate at zero, and the failure itself
propagates. -/
theorem gate_acquire_release_paired (outcome : Except String Unit) :
    (doRepositoryRun outcome).1 =
      [BuildEvent.acquire, BuildEvent.runCheck, BuildEvent.release] ∧
    (doRepositoryRun outcome).1.count BuildEvent.acquire = 1 ∧
    (doRepositoryRun outcome).1.count BuildEvent.release = 1 ∧
    gateDelta (doRepositoryRun outcome).1 = 0 ∧
    (doRepositoryRun outcome).2 = outcome :=
  ⟨rfl, rfl, rfl, rfl, rfl⟩

/-- C3: when either credential environment variable or any of the four
required options is absent, construction returns a fatal `ConfigError`
(and hence no repository is ever processed: dispatch needs the
constructed command). -/
theorem construction_fails_on_missing_config (env : Env) (opts : Options)
    (h : env.bintray_key = none ∨ env.bintray_user = none ∨
      opts.bintray_org = none ∨ opts.bintray_jar_repository = none ∨
      opts.bintray_debian_repository = none ∨
      opts.bintray_publish_wait_secs = none) :
    ∃ msg, buildDebianInit env opts =
      Except.error (BuildError.configError msg) := by
  unfold buildDebianInit
  by_cases h1 : pyTruthy env.bintray_key
  case neg => exact ⟨"Expected BINTRAY_KEY set.", by simp [h1]⟩
  case pos =>
    by_cases h2 : pyTruthy env.bintray_user
    case neg => exact ⟨"Expected BINTRAY_USER set.", by simp [h1, h2]⟩
    case pos =>
      have hopt : opts.bintray_org = none ∨
          opts.bintray_jar_repository = none ∨
          opts.bintray_debian_repository = none ∨
          opts.bintray_publish_wait_secs = none := by
        rcases h with h | h | h | h | h | h
        · rw [h] at h1; exact absurd h1 (by simp [pyTruthy])
        · rw [h] at h2; exact absurd h2 (by simp [pyTruthy])
        · exact Or.inl h
        · exact Or.inr (Or.inl h)
        · exact Or.inr (Or.inr (Or.inl h))
        · exact Or.inr (Or.inr (Or.inr h))
      have hcheck : check_options_set
          { opts with github_disable_upstream_push := true } =
          Except.error (BuildError.configError "Missing required options") := by
        unfold check_options_set
        rcases hopt with h | h | h | h <;> simp [h]
      exact ⟨"Missing required options", by simp [h1, h2, hcheck]⟩

/-- Witness for C3: `BINTRAY_KEY` unset with otherwise complete options. -/
theorem construction_fails_witness :
    envNoKey.bintray_key = none ∧
    ∃ msg, buildDebianInit envNoKey opts0 =
      Except.error (BuildError.configError msg) :=
  ⟨rfl, construction_fails_on_missing_config envNoKey opts0 (Or.inl rfl)⟩

/-- C9 counterexample: construction mutates the options object owned by the caller —
`options.github_disable_upstream_push = True` at line 35 — so the
options are not read-only as claimed. -/
theorem options_mutated_counterexample :
    buildDebianInit env0 opts0 = Except.ok cmd0 ∧ cmd0.options ≠ opts0 := by
  refine ⟨rfl, fun heq => ?_⟩
  have hpush : cmd0.options.github_disable_upstream_push =
      opts0.github_disable_upstream_push := by rw [heq]
  simp [cmd0, opts0] at hpush

/-- C9 (amended): construction forces `github_disable_upstream_push` to
true and modifies no other field of the options object; the
build-argument assembly only reads the options. -/
theorem options_mutation_only_upstream_push (env : Env) (opts : Options)
    (cmd : BuildDebianCommand)
    (h : buildDebianInit env opts = Except.ok cmd) :
    cmd.options = { opts with github_disable_upstream_push := true } := by
  rw [buildDebianInit_ok env opts cmd h]

/-- Witness for the amended C9, at the concrete fixture configuration. -/
theorem options_mutation_witness :
    buildDebianInit env0 opts0 = Except.ok cmd0 ∧
    cmd0.options = { opts0 with github_disable_upstream_push := true } :=
  ⟨rfl, options_mutation_only_upstream_push env0 opts0 cmd0 rfl⟩

/-- C4: provided the collaborator-supplied argument lists do not already
contain it, the assembled command contains the `-x test` flag iff unit
tests are disabled globally or the repository is `deck` and `CHROME_BIN`
is unset. -/
theorem skip_tests_flag_iff (options : Options) (gradle : GradleCollaborator)
    (env : Env) (repo : Repository) (ip : Bool)
    (hc : "-x test" ∉ gradle.common_args)
    (hd : "-x test" ∉ gradle.debian_args "trusty,xenial,bionic") :
    ("-x test" ∈ buildCommandArgs options gradle env repo ip ↔
      options.run_unit_tests = false ∨
        (repo.name = "deck" ∧ env.chrome_bin = none)) := by
  have hcache : ∀ p : String, ¬("-x test" = "--gradle-user-home=" ++ p) := by
    intro p hp
    have hlen := congrArg String.length hp
    rw [String.length_append] at hlen
    have h7 : ("-x test" : String).length = 7 := by decide
    have h19 : ("--gradle-user-home=" : String).length = 19 := by decide
    omega
  have hinit : ¬(("-x test" : String) = "-I gradle/init-publish.gradle") := by
    decide
  have hcond : ((!options.run_unit_tests ||
      (repo.name == "deck" && !env.chrome_bin.isSome)) = true) ↔
      (options.run_unit_tests = false ∨
        (repo.name = "deck" ∧ env.chrome_bin = none)) := by
    simp [Option.not_isSome_iff_eq_none]
  rw [← hcond]
  unfold buildCommandArgs
  cases hB : (!options.run_unit_tests ||
      (repo.name == "deck" && !env.chrome_bin.isSome)) with
  | true =>
    by_cases h1 : pyTruthy options.gradle_cache_path <;>
      by_cases h2 : ip <;>
        simp [h1, h2, List.mem_append]
  | false =>
    by_cases h1 : pyTruthy options.gradle_cache_path <;>
      by_cases h2 : ip <;>
        simp [h1, h2, List.mem_append, hc, hd, hinit,
          hcache (options.gradle_cache_path.getD "")]

/-- Witness for C4: repository `deck`, unit tests disabled, `CHROME_BIN`
unset — the flag is present (the `orca` direction is the right-to-left
implication at a repository whose name is not `deck`). -/
theorem skip_tests_flag_witness :
    ("-x test" ∉ ([] : List String)) ∧
    ("-x test" ∈ buildCommandArgs opts0
      { common_args := [], debian_args := fun _ => [] } env0
      { name := "deck", git_dir := "/src/deck" } false ↔
      (opts0.run_unit_tests = false ∨
        (("deck" : String) = "deck" ∧ env0.chrome_bin = none))) := by
  refine ⟨by simp, ?_⟩
  exact skip_tests_flag_iff opts0
    { common_args := [], debian_args := fun _ => [] } env0
    { name := "deck", git_dir := "/src/deck" } false (by simp) (by simp)

/-- C5: when `finished_ok` is already true, `refresh()` is a no-op — no
field changes and the delegate collaborator is not called — and any
further sequence of `refresh()` calls leaves the status unchanged, so
`finished_ok` stays true forever. -/
theorem refresh_noop_when_finished (s : TriggerOperationStatus)
    (h : s.finished_ok = true) (d : Bool) (now : ℚ) :
    s.refresh d now = (s, false) ∧
    ∀ inputs : List (Bool × ℚ), refreshAll s inputs = s := by
  have hone : ∀ (d9 : Bool) (t : ℚ), s.refresh d9 t = (s, false) := by
    intro d9 t
    simp [TriggerOperationStatus.refresh, h]
  refine ⟨hone d now, ?_⟩
  intro inputs
  induction inputs with
  | nil => rfl
  | cons i is ih =>
    show List.foldl _ (s.refresh i.1 i.2).1 is = s
    rw [hone i.1 i.2]
    exact ih

/-- Witness for C5, at a status with `finished_ok = true`. -/
theorem refresh_noop_witness :
    sOk.finished_ok = true ∧ sOk.refresh false 1000 = (sOk, false) ∧
    refreshAll sOk [(false, 1000), (true, 2000)] = sOk := by
  have h := refresh_noop_when_finished sOk rfl false 1000
  exact ⟨rfl, h.1, h.2 [(false, 1000), (true, 2000)]⟩

/-- C6: when `finished_ok` is false and the delegate reports completion,
`refresh()` copies it into `finished_ok` and returns without evaluating
the timeout (no other field changes); on a status fresh from
construction this leaves `timed_out` false at any elapsed time. -/
theorem refresh_copies_delegate_success (s : TriggerOperationStatus)
    (h : s.finished_ok = false) (now : ℚ) :
    s.refresh true now = ({ s with finished_ok := true }, true) ∧
    ∀ (resp : String) (clock : Nat → ℚ) (t : ℚ),
      (((statusInit resp clock).1.refresh true t).1.finished_ok = true ∧
        ((statusInit resp clock).1.refresh true t).1.is_timed_out = false) := by
  constructor
  · simp [TriggerOperationStatus.refresh, h]
  · intro resp clock t
    simp [statusInit, TriggerOperationStatus.refresh]

/-- Witness for C6: a fresh status whose delegate finishes on the first
refresh at a large elapsed time. -/
theorem refresh_copies_delegate_success_witness :
    sFresh.finished_ok = false ∧
    sFresh.refresh true 100000 = ({ sFresh with finished_ok := true }, true) :=
  ⟨rfl, (refresh_copies_delegate_success sFresh rfl 100000).1⟩

/-- C7: when `finished_ok` is false and the delegate has not finished,
`refresh()` sets `timed_out` to the strict comparison
`now - started_at > timeout_delta`, after which `finished` equals
`timed_out`; construction defaults `timeout_delta` to 5 minutes
(300 seconds). -/
theorem refresh_evaluates_timeout (s : TriggerOperationStatus)
    (h : s.finished_ok = false) (now : ℚ) :
    ((s.refresh false now).1.is_timed_out =
      decide (now - s.start > s.timeout_delta)) ∧
    (s.refresh false now).1.finished = (s.refresh false now).1.is_timed_out ∧
    ∀ (resp : String) (clock : Nat → ℚ),
      (statusInit resp clock).1.timeout_delta = 300 := by
  refine ⟨?_, ?_, fun resp clock => rfl⟩
  · simp [TriggerOperationStatus.refresh, h]
  · simp [TriggerOperationStatus.refresh, h, TriggerOperationStatus.finished]

/-- Witness for C7: `timeout_delta` = 1 second, a never-finishing
delegate, and a refresh 1.5 seconds after the start: `timed_out` and
`finished` both become true. -/
theorem refresh_evaluates_timeout_witness :
    sShort.finished_ok = false ∧
    (sShort.refresh false (3/2)).1.is_timed_out = true ∧
    (sShort.refresh false (3/2)).1.finished = true := by
  have h := refresh_evaluates_timeout sShort rfl (3/2)
  have hgt : ((3 : ℚ)/2 - sShort.start > sShort.timeout_delta) := by
    norm_num [sShort]
  refine ⟨rfl, ?_, ?_⟩
  · rw [h.1]
    exact decide_eq_true hgt
  · rw [h.2.1, h.1]
    exact decide_eq_true hgt

/-- C8 counterexample: with a clock advancing one second per external
effect, the constructor issues the status-source lookup first (effect 0)
and reads the clock for `started_at` after it (effect 1), so
`started_at` is the time after the lookup, not a time at or before the
lookup was issued. -/
theorem started_at_after_lookup_counterexample :
    (statusInit "resp" clk1).2 =
      [InitEvent.statusLookup, InitEvent.readClock] ∧
    (statusInit "resp" clk1).1.start = 1 ∧
    (statusInit "resp" clk1).1.start ≠ clk1 0 := by
  refine ⟨rfl, by norm_num [statusInit, clk1], by norm_num [statusInit, clk1]⟩

/-- C8 (amended): construction issues exactly one status-source lookup
to capture `trigger_response`, then records `started_at = now`
immediately after the lookup returns, and initializes `finished_ok`
(and `timed_out`) to false. -/
theorem status_init_spec (resp : String) (clock : Nat → ℚ) :
    (statusInit resp clock).2 =
      [InitEvent.statusLookup, InitEvent.readClock] ∧
    (statusInit resp clock).2.count InitEvent.statusLookup = 1 ∧
    (statusInit resp clock).1.start = clock 1 ∧
    (statusInit resp clock).1.trigger_response = resp ∧
    (statusInit resp clock).1.finished_ok = false ∧
    (statusInit resp clock).1.is_timed_out = false :=
  ⟨rfl, rfl, rfl, rfl, rfl, rfl⟩

/-- C10: on a status that already timed out but has not finished, a
refresh in which the delegate reports success sets `finished_ok` true
while leaving `timed_out` true — both terminal flags hold at once, and
`finished` stays true. -/
theorem late_success_keeps_timed_out (s : TriggerOperationStatus)
    (h1 : s.finished_ok = false) (h2 : s.is_timed_out = true) (now : ℚ) :
    (s.refresh true now).1.finished_ok = true ∧
    (s.refresh true now).1.is_timed_out = true ∧
    (s.refresh true now).1.finished = true := by
  simp [TriggerOperationStatus.refresh, h1, h2,
    TriggerOperationStatus.finished]

/-- Witness for C10: the timed-out-but-unfinished state reached from
construction by one refresh at 301 seconds; a later delegate success at
302 seconds leaves both flags true. -/
theorem late_success_keeps_timed_out_witness :
    sTimedOut.finished_ok = false ∧
    sTimedOut.is_timed_out = true ∧
    (sTimedOut.refresh true 302).1.finished_ok = true ∧
    (sTimedOut.refresh true 302).1.is_timed_out = true ∧
    (sTimedOut.refresh true 302).1.finished = true := by
  have hok : sTimedOut.finished_ok = false := by
    norm_num [sTimedOut, statusInit, TriggerOperationStatus.refresh]
  have hto : sTimedOut.is_timed_out = true := by
    norm_num [sTimedOut, statusInit, TriggerOperationStatus.refresh]
  have h := late_success_keeps_timed_out sTimedOut hok hto 302
  exact ⟨hok, hto, h.1, h.2.1, h.2.2⟩

end Spinnaker
